import Mathlib

/-!
Verification of `file_manager_integration` (file_managers.py) against its
specification.  The filesystem is modelled as an association list from paths
(component lists) to entries; paths resolve through symbolic links with a
bounded hop count, mirroring the POSIX `stat` behaviour that `pathlib`'s
`exists()`/`is_dir()` rely on.  Python exceptions are modelled by an explicit
error type, and each installer returns the outcome together with the warnings
it logged.
-/

set_option autoImplicit false
set_option maxRecDepth 8192

deriving instance DecidableEq for Except

namespace FMI

/-! ### Filesystem model -/

/-- A filesystem path, as its list of components (`pathlib.Path.parts`). -/
abbrev Path := List String

/-- `str()` of a relative `pathlib.Path`: components joined by slashes. -/
def pathStr (p : Path) : String := String.intercalate "/" p

/-- A filesystem entry: a directory, a regular file with its text content,
or a symbolic link storing its (unresolved) target path. -/
inductive FSEntry where
  | dir : FSEntry
  | file (content : String) : FSEntry
  | symlink (target : Path) : FSEntry
deriving DecidableEq, Repr

/-- The filesystem: an association list from paths to entries.
The first binding for a path wins; a well-formed filesystem has no
duplicate paths. -/
abbrev FS := List (Path × FSEntry)

/-- Look up the entry stored at a path, without following symbolic links
(the behaviour of `lstat`, `Path.is_symlink`, `Path.readlink`). -/
def lookupPath : FS → Path → Option FSEntry
  | [], _ => none
  | (q, e) :: rest, p => if q = p then some e else lookupPath rest p

/-- Remove every binding for a path. -/
def removePath (fs : FS) (p : Path) : FS :=
  fs.filter (fun pe => decide (pe.1 ≠ p))

/-- The kernel's bound on symbolic-link hops during resolution. -/
def maxSymlinkHops : Nat := 40

/-- Resolve a path as `stat` does: follow symbolic links up to the given
hop budget; a dangling link or an exhausted budget yields `none`. -/
def resolveEntry (fs : FS) : Nat → Path → Option FSEntry
  | 0, _ => none
  | fuel + 1, p =>
    match lookupPath fs p with
    | some (FSEntry.symlink t) => resolveEntry fs fuel t
    | some FSEntry.dir => some FSEntry.dir
    | some (FSEntry.file c) => some (FSEntry.file c)
    | none => none

/-- `pathlib.Path.exists()`: resolves symbolic links, so a dangling
symlink does not "exist". -/
def pathExists (fs : FS) (p : Path) : Bool :=
  (resolveEntry fs maxSymlinkHops p).isSome

/-- `pathlib.Path.is_dir()`: resolves symbolic links and checks for a
directory. -/
def isDir (fs : FS) (p : Path) : Bool :=
  match resolveEntry fs maxSymlinkHops p with
  | some FSEntry.dir => true
  | _ => false

/-- The `(name, entry)` pairs that `scripts_path.glob("*")` visits: the
entries directly inside directory `d`, in filesystem order. -/
def dirEntries (fs : FS) (d : Path) : List (String × FSEntry) :=
  fs.filterMap (fun pe =>
    if pe.1.dropLast = d then pe.1.getLast?.map (fun n => (n, pe.2)) else none)

/-- The names of the entries of directory `d` that are symbolic links
pointing at `src` (specification-side helper for counting links). -/
def linksTo (fs : FS) (d src : Path) : List String :=
  ((dirEntries fs d).filter (fun en => decide (en.2 = FSEntry.symlink src))).map Prod.fst

/-- `os.rename(src, dst)` on an existing `src`: POSIX semantics, silently
replacing anything at `dst` (renaming a path onto itself is a no-op). -/
def osRename (fs : FS) (src dst : Path) : FS :=
  match lookupPath fs src with
  | some e => (dst, e) :: removePath (removePath fs src) dst
  | none => fs

/-! ### Python errors -/

/-- The Python exceptions the modelled code can raise.  The tool's own
typed failures are all `ValueError`s distinguished by message; the
remaining constructors are untyped exceptions escaping from `os`,
`subprocess` or attribute/key lookup. -/
inductive PyErr where
  | valueError (msg : String) : PyErr
  | keyError (key : String) : PyErr
  | fileExistsError : PyErr
  | fileNotFoundError : PyErr
  | isADirectoryError : PyErr
  | notImplementedError : PyErr
  | attributeError (attr : String) : PyErr
deriving DecidableEq, Repr

/-- `os.symlink(source, linkPath)`: fails with `FileExistsError` whenever
any entry — even a dangling symlink — occupies the link path. -/
def osSymlink (fs : FS) (source linkPath : Path) : Except PyErr FS :=
  match lookupPath fs linkPath with
  | some _ => Except.error PyErr.fileExistsError
  | none => Except.ok ((linkPath, FSEntry.symlink source) :: fs)

/-- `pathlib.Path.mkdir()` (no parents, no exist_ok): fails if the path is
occupied or its parent directory is missing. -/
def pathMkdir (fs : FS) (p : Path) : Except PyErr FS :=
  match lookupPath fs p with
  | some _ => Except.error PyErr.fileExistsError
  | none =>
    if isDir fs p.dropLast then Except.ok ((p, FSEntry.dir) :: fs)
    else Except.error PyErr.fileNotFoundError

/-- `open(p, mode="wt")` followed by a full write: overwrites an existing
regular file, fails if the parent directory is missing or `p` is a
directory. -/
def writeTextFile (fs : FS) (p : Path) (content : String) : Except PyErr FS :=
  if isDir fs p.dropLast then
    match lookupPath fs p with
    | some FSEntry.dir => Except.error PyErr.isADirectoryError
    | _ => Except.ok ((p, FSEntry.file content) :: removePath fs p)
  else Except.error PyErr.fileNotFoundError

/-! ### Constants (file_managers.py) -/

def ACTIONS : String := "actions"

def SCRIPTS : String := "scripts"

def NEMO_ACTION_TEMPLATE : String :=
  "[Nemo Action]\nName=${name}\nComment=${comment}\nExec=${executable} %F\nSelection=S\nExtensions=${extensions};\nQuote=double\n"

def KFM_ACTION_TEMPLATE : String :=
  "[Desktop Entry]\nType=Service\nServiceTypes=KonqPopupMenu/Plugin\nMimeType=${mimetypes};\nInitialPreference=99\nActions=${identifier}\n\n[Desktop Action ${identifier}]\nName=${name}\nExec=${executable} %F\n"

/-! ### The file manager classes -/

/-- The concrete classes of file_managers.py (`BaseFileManager` and its
subclasses). -/
inductive FileManager where
  | base : FileManager
  | nautilus : FileManager
  | caja : FileManager
  | nemo : FileManager
  | kdefileManager : FileManager
  | pcManFm : FileManager
  | thunar : FileManager
deriving DecidableEq, Repr

/-- The `name` class attribute. -/
def FileManager.fmName : FileManager → String
  | FileManager.base => "Unknown File Manager"
  | FileManager.nautilus => "Nautilus"
  | FileManager.caja => "Caja"
  | FileManager.nemo => "Nemo"
  | FileManager.kdefileManager => "KDE file manager"
  | FileManager.pcManFm => "PCManFM"
  | FileManager.thunar => "Thunar"

/-- The `config_path` class attribute (inherited from the base class where
not overridden). -/
def FileManager.configPath : FileManager → Path
  | FileManager.base => [".local", "share", "unknown"]
  | FileManager.nautilus => [".local", "share", "nautilus"]
  | FileManager.caja => [".local", "share", "caja"]
  | FileManager.nemo => [".local", "share", "nemo"]
  | FileManager.kdefileManager => [".local", "share", "unknown"]
  | FileManager.pcManFm => [".local", "share", "unknown"]
  | FileManager.thunar => [".local", "share", "unknown"]

/-- The `actions_subdir` class attribute (never overridden). -/
def FileManager.actionsSubdir (_ : FileManager) : String := "actions"

/-- The `scripts_subdir` class attribute (never overridden). -/
def FileManager.scriptsSubdir (_ : FileManager) : String := "scripts"

/-- The `capabilities` class attribute. -/
def FileManager.capabilities : FileManager → List String
  | FileManager.base => []
  | FileManager.nautilus => [SCRIPTS]
  | FileManager.caja => [ACTIONS, SCRIPTS]
  | FileManager.nemo => [ACTIONS, SCRIPTS]
  | FileManager.kdefileManager => [ACTIONS]
  | FileManager.pcManFm => [ACTIONS]
  | FileManager.thunar => [ACTIONS]

/-- The `action_template` class attribute. -/
def FileManager.actionTemplate : FileManager → String
  | FileManager.nemo => NEMO_ACTION_TEMPLATE
  | FileManager.kdefileManager => KFM_ACTION_TEMPLATE
  | _ => ""

/-- The `executable` class attribute. -/
def FileManager.executablePath : FileManager → String
  | FileManager.nautilus => "/usr/bin/nautilus"
  | FileManager.caja => "/usr/bin/nautilus"
  | FileManager.nemo => "/usr/bin/nemo"
  | _ => "/bin/false"

/-- An initialised instance: `BaseFileManager.__init__` sets the
`actions_path` / `scripts_path` attributes only when the matching
capability is declared, so each is an optional attribute. -/
structure Profile where
  fm : FileManager
  actions_path : Option Path
  scripts_path : Option Path
deriving DecidableEq, Repr

/-- `BaseFileManager.__init__`. -/
def initProfile (fm : FileManager) : Profile :=
  { fm := fm
    actions_path :=
      if ACTIONS ∈ fm.capabilities then some (fm.configPath ++ [fm.actionsSubdir])
      else none
    scripts_path :=
      if SCRIPTS ∈ fm.capabilities then some (fm.configPath ++ [fm.scriptsSubdir])
      else none }

/-- The `scripts_path` attribute value, as used once the scripts capability
check has passed. -/
def scriptsPathOf (fm : FileManager) : Path := fm.configPath ++ [fm.scriptsSubdir]

/-- The `actions_path` attribute value, as used once the actions capability
check has passed. -/
def actionsPathOf (fm : FileManager) : Path := fm.configPath ++ [fm.actionsSubdir]

/-- `BaseFileManager.check_installation`: raises `ValueError` when the base
config directory is not a directory. -/
def check_installation (fm : FileManager) (fs : FS) : Except PyErr Unit :=
  if isDir fs fm.configPath then Except.ok ()
  else Except.error (PyErr.valueError (fm.fmName ++ " is probably not installed!"))

/-- `BaseFileManager.check_actions_support`: raises `ValueError` when the
actions capability is absent, then delegates to `check_installation`. -/
def check_actions_support (fm : FileManager) (fs : FS) : Except PyErr Unit :=
  if ACTIONS ∈ fm.capabilities then check_installation fm fs
  else Except.error (PyErr.valueError ("Actions not supported in " ++ fm.fmName ++ "!"))

/-- `BaseFileManager.check_scripts_support`: raises `ValueError` when the
scripts capability is absent, then delegates to `check_installation`. -/
def check_scripts_support (fm : FileManager) (fs : FS) : Except PyErr Unit :=
  if SCRIPTS ∈ fm.capabilities then check_installation fm fs
  else Except.error (PyErr.valueError ("Scripts not supported in " ++ fm.fmName ++ "!"))

/-! ### The script-symlink installer (Nautilus family) -/

/-- Result of the `glob("*")` loop of `Nautilus.install_script`: either an
early return after `os.rename`, or the loop falls through, having logged a
warning for each already-present symlink to the source. -/
inductive ScanResult where
  | renamed (fs : FS) : ScanResult
  | fallthrough (warned : List Path) : ScanResult
deriving DecidableEq, Repr

/-- The `for single_path in self.scripts_path.glob("*")` loop of
`Nautilus.install_script`, over the directory entries of `d`: each symlink
whose `readlink()` equals the source is renamed onto the target and the
function returns when `force_rename_existing` is set, and is otherwise
warned about. -/
def scanLinks (fs : FS) (d target src : Path) (forceRename : Bool) :
    List (String × FSEntry) → ScanResult
  | [] => ScanResult.fallthrough []
  | (n, en) :: rest =>
    match en with
    | FSEntry.symlink t =>
      if t = src then
        if forceRename then ScanResult.renamed (osRename fs (d ++ [n]) target)
        else
          match scanLinks fs d target src forceRename rest with
          | ScanResult.renamed fs2 => ScanResult.renamed fs2
          | ScanResult.fallthrough ws => ScanResult.fallthrough ((d ++ [n]) :: ws)
      else scanLinks fs d target src forceRename rest
    | _ => scanLinks fs d target src forceRename rest

/-- The outcome of one `install_script` call: the raised error or the new
filesystem, together with the warnings logged on the way. -/
structure ScriptInstallRun where
  result : Except PyErr FS
  warnings : List Path
deriving DecidableEq, Repr

/-- `Nautilus.install_script` (inherited by Caja and Nemo): capability and
installation check, scripts-directory check (created only under
`force_create_directories`), target-occupancy check via the resolving
`exists()`, the symlink scan, and finally `os.symlink`. -/
def install_script (fm : FileManager) (fs : FS) (absolute_source_path : Path)
    (display_name : String) (force_create_directories force_rename_existing : Bool) :
    ScriptInstallRun :=
  match check_scripts_support fm fs with
  | Except.error e => ⟨Except.error e, []⟩
  | Except.ok _ =>
    let sp := scriptsPathOf fm
    match (if isDir fs sp then Except.ok fs
           else if force_create_directories then pathMkdir fs sp
           else Except.error (PyErr.valueError (pathStr sp ++ " not available!"))) with
    | Except.error e => ⟨Except.error e, []⟩
    | Except.ok fs1 =>
      let target := sp ++ [display_name]
      if pathExists fs1 target then
        ⟨Except.error (PyErr.valueError (pathStr target ++ " already exists!")), []⟩
      else
        match scanLinks fs1 sp target absolute_source_path force_rename_existing
            (dirEntries fs1 sp) with
        | ScanResult.renamed fs2 => ⟨Except.ok fs2, []⟩
        | ScanResult.fallthrough ws => ⟨osSymlink fs1 absolute_source_path target, ws⟩

/-- The classes that define `install_script` (the Nautilus family). -/
def hasInstallScriptMethod : FileManager → Bool
  | FileManager.nautilus => true
  | FileManager.caja => true
  | FileManager.nemo => true
  | _ => false

/-- `profile.install_script(...)` as a Python attribute access plus call:
classes without the method raise `AttributeError`. -/
def invoke_install_script (fm : FileManager) (fs : FS) (absolute_source_path : Path)
    (display_name : String) (force_create_directories force_rename_existing : Bool) :
    ScriptInstallRun :=
  if hasInstallScriptMethod fm then
    install_script fm fs absolute_source_path display_name
      force_create_directories force_rename_existing
  else ⟨Except.error (PyErr.attributeError "install_script"), []⟩

/-! ### string.Template safe substitution -/

/-- First character of a `string.Template` identifier: `[_a-zA-Z]`. -/
def isIdStart (c : Char) : Bool := c.isAlpha || c = '_'

/-- Later characters of a `string.Template` identifier: `[_a-zA-Z0-9]`. -/
def isIdChar (c : Char) : Bool := c.isAlphanum || c = '_'

/-- Split off the longest prefix of identifier characters. -/
def spanId : List Char → List Char × List Char
  | [] => ([], [])
  | c :: cs =>
    if isIdChar c then
      let r := spanId cs
      (c :: r.1, r.2)
    else ([], c :: cs)

/-- Read a `string.Template` identifier (`[_a-zA-Z][_a-zA-Z0-9]*`) from the
front of the character list, if one is there. -/
def takeIdent (cs : List Char) : Option (List Char × List Char) :=
  match cs with
  | [] => none
  | c :: rest =>
    if isIdStart c then
      let r := spanId rest
      some (c :: r.1, r.2)
    else none

/-- One scan of `string.Template.safe_substitute` over the character list:
`$$` renders as `$`; `$ident` and `${ident}` are replaced by the mapping's
value when the key is present and kept verbatim otherwise; any other `$`
is kept as literal text.  The scan consumes at least one character per
step, so a fuel of `length + 1` always suffices (`fuel = 0` only pads the
recursion and returns the rest unchanged). -/
def safeSubstituteAux (m : String → Option String) : Nat → List Char → List Char
  | 0, cs => cs
  | _ + 1, [] => []
  | fuel + 1, c :: cs =>
    if c = '$' then
      match cs with
      | [] => ['$']
      | d :: ds =>
        if d = '$' then '$' :: safeSubstituteAux m fuel ds
        else if d = '{' then
          match takeIdent ds with
          | some (ident, rest) =>
            match rest with
            | '}' :: rest2 =>
              (match m (String.mk ident) with
               | some v => v.data ++ safeSubstituteAux m fuel rest2
               | none => '$' :: '{' :: (ident ++ ('}' :: safeSubstituteAux m fuel rest2)))
            | _ => '$' :: safeSubstituteAux m fuel cs
          | none => '$' :: safeSubstituteAux m fuel cs
        else
          match takeIdent cs with
          | some (ident, rest) =>
            (match m (String.mk ident) with
             | some v => v.data ++ safeSubstituteAux m fuel rest
             | none => '$' :: (ident ++ safeSubstituteAux m fuel rest))
          | none => '$' :: safeSubstituteAux m fuel cs
    else c :: safeSubstituteAux m fuel cs

/-- `string.Template(tpl).safe_substitute(mapping)`. -/
def safeSubstitute (tpl : String) (m : String → Option String) : String :=
  String.mk (safeSubstituteAux m (tpl.data.length + 1) tpl.data)

/-! ### The action-descriptor installer (Nemo) -/

/-- Keyword-argument lookup (`options[key]` / `mapping[key]`), first
binding wins. -/
def optLookup : List (String × String) → String → Option String
  | [], _ => none
  | (k, v) :: rest, key => if k = key then some v else optLookup rest key

/-- `options[k] = v`: bind `k`, shadowing any previous binding. -/
def setOption (opts : List (String × String)) (k v : String) : List (String × String) :=
  (k, v) :: opts.filter (fun kv => decide (kv.1 ≠ k))

/-- `Nemo.install_action`: capability and installation check, then renders
`NEMO_ACTION_TEMPLATE` with `safe_substitute` — after binding the key
`"exec"` (not `"executable"`) to `str(source_path)` — and writes the result
to `actions_path / f"{name}.nemo_action"`, with no existence guard. -/
def Nemo.install_action (fs : FS) (source_path : Path)
    (options : List (String × String)) : Except PyErr FS :=
  match check_actions_support FileManager.nemo fs with
  | Except.error e => Except.error e
  | Except.ok _ =>
    match optLookup options "name" with
    | none => Except.error (PyErr.keyError "name")
    | some action_name =>
      let target_file := action_name ++ ".nemo_action"
      let options2 := setOption options "exec" (pathStr source_path)
      writeTextFile fs (actionsPathOf FileManager.nemo ++ [target_file])
        (safeSubstitute NEMO_ACTION_TEMPLATE (optLookup options2))

/-- The classes that define `install_action` (on Nemo it is implemented;
on Caja, the KDE file manager, PCManFM and Thunar it is a stub that raises
`NotImplementedError` before doing anything else). -/
def hasInstallActionMethod : FileManager → Bool
  | FileManager.caja => true
  | FileManager.nemo => true
  | FileManager.kdefileManager => true
  | FileManager.pcManFm => true
  | FileManager.thunar => true
  | _ => false

/-- The classes whose `install_action` is the bare `raise
NotImplementedError` stub. -/
def isActionStub : FileManager → Bool
  | FileManager.caja => true
  | FileManager.kdefileManager => true
  | FileManager.pcManFm => true
  | FileManager.thunar => true
  | _ => false

/-- `profile.install_action(...)` as a Python attribute access plus call:
classes without the method raise `AttributeError`, the stubs raise
`NotImplementedError`, and Nemo runs its implementation. -/
def invoke_install_action (fm : FileManager) (fs : FS) (source_path : Path)
    (options : List (String × String)) : Except PyErr FS :=
  match fm with
  | FileManager.nemo => Nemo.install_action fs source_path options
  | FileManager.caja => Except.error PyErr.notImplementedError
  | FileManager.kdefileManager => Except.error PyErr.notImplementedError
  | FileManager.pcManFm => Except.error PyErr.notImplementedError
  | FileManager.thunar => Except.error PyErr.notImplementedError
  | FileManager.base => Except.error (PyErr.attributeError "install_action")
  | FileManager.nautilus => Except.error (PyErr.attributeError "install_action")

/-- How the version-probe subprocess of `is_installed` can end. -/
inductive ProbeOutcome where
  | exitZero : ProbeOutcome
  | exitNonZero : ProbeOutcome
  | spawnFailure : ProbeOutcome
deriving DecidableEq, Repr

/-- `BaseFileManager.is_installed`: `subprocess.run(..., check=True)` raises
`CalledProcessError` on a non-zero exit, which is caught; a spawn failure
raises `FileNotFoundError`, which the `except` clause does not catch. -/
def is_installed (outcome : ProbeOutcome) : Except PyErr Bool :=
  match outcome with
  | ProbeOutcome.exitZero => Except.ok true
  | ProbeOutcome.exitNonZero => Except.ok false
  | ProbeOutcome.spawnFailure => Except.error PyErr.fileNotFoundError

/-! ### Helper lemmas about the filesystem model -/

theorem lookupPath_cons_ne {fs : FS} {q p : Path} {e : FSEntry} (h : q ≠ p) :
    lookupPath ((q, e) :: fs) p = lookupPath fs p := by
  simp [lookupPath, h]

theorem lookupPath_cons_self {fs : FS} {p : Path} {e : FSEntry} :
    lookupPath ((p, e) :: fs) p = some e := by
  simp [lookupPath]

theorem concat_ne_self (l : List String) (a : String) : l ++ [a] ≠ l := by
  intro h
  have h2 := congrArg List.length h
  simp at h2

theorem concat_two_ne_self (l : List String) (a b : String) : (l ++ [a]) ++ [b] ≠ l := by
  intro h
  have h2 := congrArg List.length h
  simp at h2

theorem isDir_of_lookup_dir {fs : FS} {p : Path} (h : lookupPath fs p = some FSEntry.dir) :
    isDir fs p = true := by
  simp [isDir, maxSymlinkHops, resolveEntry, h]

theorem pathExists_of_lookup_none {fs : FS} {p : Path} (h : lookupPath fs p = none) :
    pathExists fs p = false := by
  simp [pathExists, maxSymlinkHops, resolveEntry, h]

theorem pathExists_symlink_file {fs : FS} {p t : Path} {c : String}
    (hp : lookupPath fs p = some (FSEntry.symlink t))
    (ht : lookupPath fs t = some (FSEntry.file c)) : pathExists fs p = true := by
  simp [pathExists, maxSymlinkHops, resolveEntry, hp, ht]

theorem pathExists_symlink_dangling {fs : FS} {p t : Path}
    (hp : lookupPath fs p = some (FSEntry.symlink t))
    (ht : lookupPath fs t = none) : pathExists fs p = false := by
  simp [pathExists, maxSymlinkHops, resolveEntry, hp, ht]

theorem eq_concat_of_getLast? {l : List String} {n : String}
    (h : l.getLast? = some n) : l = l.dropLast ++ [n] := by
  induction l with
  | nil => simp at h
  | cons a t ih =>
    cases t with
    | nil =>
      simp at h
      simp [h]
    | cons b t2 =>
      rw [List.getLast?_cons_cons] at h
      have h2 := ih h
      calc a :: b :: t2 = a :: ((b :: t2).dropLast ++ [n]) := by rw [← h2]
        _ = (a :: b :: t2).dropLast ++ [n] := by simp

theorem dirEntries_cons_concat (fs : FS) (d : Path) (n : String) (e : FSEntry) :
    dirEntries ((d ++ [n], e) :: fs) d = (n, e) :: dirEntries fs d := by
  simp [dirEntries, List.filterMap_cons]

theorem linksTo_cons_concat_link (fs : FS) (d src : Path) (n : String) :
    linksTo ((d ++ [n], FSEntry.symlink src) :: fs) d src = n :: linksTo fs d src := by
  simp [linksTo, dirEntries_cons_concat]

theorem linksTo_sublist (d src : Path) {fs1 fs2 : FS} (h : fs1.Sublist fs2) :
    (linksTo fs1 d src).Sublist (linksTo fs2 d src) :=
  ((h.filterMap _).filter _).map _

theorem mem_linksTo {fs : FS} {d src : Path} {n : String} (h : n ∈ linksTo fs d src) :
    (d ++ [n], FSEntry.symlink src) ∈ fs := by
  simp only [linksTo, List.mem_map, List.mem_filter, decide_eq_true_eq] at h
  obtain ⟨⟨n2, e⟩, ⟨hmem, hlink⟩, hfst⟩ := h
  dsimp only at hfst hlink
  subst hfst
  subst hlink
  simp only [dirEntries, List.mem_filterMap] at hmem
  obtain ⟨⟨p, e2⟩, hpe, hcond⟩ := hmem
  dsimp only at hcond
  by_cases hd : p.dropLast = d
  · rw [if_pos hd] at hcond
    rcases hlast : p.getLast? with _ | n3
    · rw [hlast] at hcond
      simp at hcond
    · rw [hlast] at hcond
      simp only [Option.map_some', Option.some.injEq, Prod.mk.injEq] at hcond
      obtain ⟨h1, h2⟩ := hcond
      have hp : p = d ++ [n2] := by
        rw [← hd, ← h1]
        exact eq_concat_of_getLast? hlast
      rw [← hp, ← h2]
      exact hpe
  · rw [if_neg hd] at hcond
    simp at hcond

theorem not_mem_removePath {fs : FS} {q p : Path} {e : FSEntry}
    (h : (p, e) ∈ removePath fs q) : p ≠ q := by
  simp only [removePath, List.mem_filter, decide_eq_true_eq] at h
  exact h.2

theorem removePath_sublist (fs : FS) (q : Path) : (removePath fs q).Sublist fs :=
  List.filter_sublist fs

theorem linksTo_remove_old {fs : FS} {d src : Path} {old : String}
    (h : linksTo fs d src = [old]) :
    linksTo (removePath fs (d ++ [old])) d src = [] := by
  rcases hE : linksTo (removePath fs (d ++ [old])) d src with _ | ⟨x, rest⟩
  · rfl
  · exfalso
    have hx : x ∈ linksTo (removePath fs (d ++ [old])) d src := by
      rw [hE]; exact List.mem_cons_self x rest
    have hx2 : x ∈ linksTo fs d src :=
      (linksTo_sublist d src (removePath_sublist fs (d ++ [old]))).subset hx
    rw [h] at hx2
    have hxold : x = old := by simpa using hx2
    subst hxold
    exact not_mem_removePath (mem_linksTo hx) rfl

theorem lookup_of_mem_nodup {fs : FS} {p : Path} {e : FSEntry}
    (hnd : (fs.map Prod.fst).Nodup) (h : (p, e) ∈ fs) : lookupPath fs p = some e := by
  induction fs with
  | nil => simp at h
  | cons pe rest ih =>
    obtain ⟨q, e2⟩ := pe
    rcases List.mem_cons.mp h with h1 | h1
    · injection h1 with hq he
      subst hq
      subst he
      exact lookupPath_cons_self
    · have hne : q ≠ p := by
        intro hEq
        subst hEq
        have : q ∈ rest.map Prod.fst := List.mem_map_of_mem Prod.fst h1
        exact (List.nodup_cons.mp hnd).1 this
      rw [lookupPath_cons_ne hne]
      exact ih (List.nodup_cons.mp hnd).2 h1

/-! ### Helper lemmas about the installer control flow -/

theorem scripts_mem_of_hasMethod {fm : FileManager} (h : hasInstallScriptMethod fm = true) :
    SCRIPTS ∈ fm.capabilities := by
  cases fm <;> simp_all [hasInstallScriptMethod, FileManager.capabilities]

theorem check_scripts_support_of_mem {fm : FileManager} {fs : FS}
    (h : SCRIPTS ∈ fm.capabilities) :
    check_scripts_support fm fs = check_installation fm fs := by
  simp [check_scripts_support, h]

theorem check_actions_support_of_mem {fm : FileManager} {fs : FS}
    (h : ACTIONS ∈ fm.capabilities) :
    check_actions_support fm fs = check_installation fm fs := by
  simp [check_actions_support, h]

theorem check_installation_ok {fm : FileManager} {fs : FS}
    (h : isDir fs fm.configPath = true) : check_installation fm fs = Except.ok () := by
  simp [check_installation, h]

theorem scanLinks_rename_single {fs : FS} {d target src : Path} {old : String}
    {es : List (String × FSEntry)}
    (h : es.filter (fun en => decide (en.2 = FSEntry.symlink src))
        = [(old, FSEntry.symlink src)]) :
    scanLinks fs d target src true es = ScanResult.renamed (osRename fs (d ++ [old]) target) := by
  induction es with
  | nil => simp at h
  | cons en rest ih =>
    obtain ⟨n, e⟩ := en
    by_cases hc : e = FSEntry.symlink src
    · subst hc
      rw [List.filter_cons_of_pos (by simp)] at h
      rw [List.cons_eq_cons] at h
      obtain ⟨h1, _⟩ := h
      injection h1 with hn _
      subst hn
      simp [scanLinks]
    · rw [List.filter_cons_of_neg (by simpa using hc)] at h
      cases e with
      | dir => simpa [scanLinks] using ih h
      | file c => simpa [scanLinks] using ih h
      | symlink t =>
        have ht : t ≠ src := by
          intro hEq
          exact hc (by rw [hEq])
        simpa [scanLinks, ht] using ih h

theorem scanLinks_no_force (fs : FS) (d target src : Path)
    (es : List (String × FSEntry)) :
    scanLinks fs d target src false es
      = ScanResult.fallthrough
          ((es.filter (fun en => decide (en.2 = FSEntry.symlink src))).map
            (fun en => d ++ [en.1])) := by
  induction es with
  | nil => simp [scanLinks]
  | cons en rest ih =>
    obtain ⟨n, e⟩ := en
    cases e with
    | dir => simpa [scanLinks, List.filter_cons] using ih
    | file c => simpa [scanLinks, List.filter_cons] using ih
    | symlink t =>
      by_cases ht : t = src
      · subst ht
        simp [scanLinks, List.filter_cons, ih]
      · simp [scanLinks, List.filter_cons, ht, ih]

theorem scanLinks_no_match {fs : FS} {d target src : Path} (fr : Bool)
    {es : List (String × FSEntry)}
    (h : es.filter (fun en => decide (en.2 = FSEntry.symlink src)) = []) :
    scanLinks fs d target src fr es = ScanResult.fallthrough [] := by
  induction es with
  | nil => simp [scanLinks]
  | cons en rest ih =>
    obtain ⟨n, e⟩ := en
    by_cases hc : e = FSEntry.symlink src
    · subst hc
      rw [List.filter_cons_of_pos (by simp)] at h
      simp at h
    · rw [List.filter_cons_of_neg (by simpa using hc)] at h
      cases e with
      | dir => simpa [scanLinks] using ih h
      | file c => simpa [scanLinks] using ih h
      | symlink t =>
        have ht : t ≠ src := by
          intro hEq
          exact hc (by rw [hEq])
        simpa [scanLinks, ht] using ih h

theorem install_script_run {fm : FileManager} {fs : FS} (src : Path) (dn : String)
    (fc fr : Bool)
    (hmem : SCRIPTS ∈ fm.capabilities)
    (hconf : isDir fs fm.configPath = true)
    (hs : isDir fs (scriptsPathOf fm) = true)
    (htgt : pathExists fs (scriptsPathOf fm ++ [dn]) = false) :
    install_script fm fs src dn fc fr
      = (match scanLinks fs (scriptsPathOf fm) (scriptsPathOf fm ++ [dn]) src fr
            (dirEntries fs (scriptsPathOf fm)) with
        | ScanResult.renamed fs2 => ⟨Except.ok fs2, []⟩
        | ScanResult.fallthrough ws =>
            ⟨osSymlink fs src (scriptsPathOf fm ++ [dn]), ws⟩) := by
  rw [install_script, check_scripts_support_of_mem hmem, check_installation_ok hconf]
  simp [hs, htgt]

theorem install_script_target_exists {fm : FileManager} {fs : FS} (src : Path) (dn : String)
    (fc fr : Bool)
    (hmem : SCRIPTS ∈ fm.capabilities)
    (hconf : isDir fs fm.configPath = true)
    (hs : isDir fs (scriptsPathOf fm) = true)
    (htgt : pathExists fs (scriptsPathOf fm ++ [dn]) = true) :
    install_script fm fs src dn fc fr
      = ⟨Except.error (PyErr.valueError (pathStr (scriptsPathOf fm ++ [dn])
          ++ " already exists!")), []⟩ := by
  rw [install_script, check_scripts_support_of_mem hmem, check_installation_ok hconf]
  simp [hs, htgt]

theorem filter_links_eq_single (src : Path) {es : List (String × FSEntry)} {old : String}
    (h : (es.filter (fun en => decide (en.2 = FSEntry.symlink src))).map Prod.fst = [old]) :
    es.filter (fun en => decide (en.2 = FSEntry.symlink src))
      = [(old, FSEntry.symlink src)] := by
  rcases hF : es.filter (fun en => decide (en.2 = FSEntry.symlink src)) with _ | ⟨⟨n0, e0⟩, rest0⟩
  · rw [hF] at h
    simp at h
  · rw [hF] at h
    simp only [List.map_cons] at h
    rw [List.cons_eq_cons] at h
    obtain ⟨h1, h2⟩ := h
    subst h1
    have hrest : rest0 = [] := by
      simpa using h2
    have he0 : e0 = FSEntry.symlink src := by
      have hm : (n0, e0) ∈ es.filter (fun en => decide (en.2 = FSEntry.symlink src)) := by
        rw [hF]
        exact List.mem_cons_self _ _
      simpa using (List.mem_filter.mp hm).2
    rw [hF, hrest, he0]

theorem optLookup_filter_ne {opts : List (String × String)} {k key : String} (h : key ≠ k) :
    optLookup (opts.filter (fun kv => decide (kv.1 ≠ k))) key = optLookup opts key := by
  induction opts with
  | nil => rfl
  | cons kv rest ih =>
    obtain ⟨k1, v1⟩ := kv
    by_cases h1 : k1 = k
    · subst h1
      rw [List.filter_cons_of_neg (by simp)]
      rw [ih]
      have h2 : k1 ≠ key := fun hEq => h (hEq ▸ rfl)
      simp [optLookup, h2]
    · rw [List.filter_cons_of_pos (by simpa using h1)]
      by_cases h2 : k1 = key
      · subst h2
        simp [optLookup]
      · simp only [optLookup, if_neg h2]
        exact ih

theorem optLookup_setOption_ne {opts : List (String × String)} (k v : String) {key : String}
    (h : key ≠ k) : optLookup (setOption opts k v) key = optLookup opts key := by
  have hk : k ≠ key := fun hEq => h hEq.symm
  simp only [setOption, optLookup, hk, if_false, if_neg hk]
  exact optLookup_filter_ne h

theorem safeSubstitute_nemo_template (m : String → Option String) :
    safeSubstitute NEMO_ACTION_TEMPLATE m
      = "[Nemo Action]\nName=" ++ ((m "name").getD "${name}")
        ++ "\nComment=" ++ ((m "comment").getD "${comment}")
        ++ "\nExec=" ++ ((m "executable").getD "${executable}")
        ++ " %F\nSelection=S\nExtensions=" ++ ((m "extensions").getD "${extensions}")
        ++ ";\nQuote=double\n" := by
  rcases hn : m "name" with _ | vn <;> rcases hc : m "comment" with _ | vc <;>
    rcases he : m "executable" with _ | ve <;> rcases hx : m "extensions" with _ | vx <;>
    simp [safeSubstitute, NEMO_ACTION_TEMPLATE, safeSubstituteAux, takeIdent, spanId,
      isIdStart, isIdChar, hn, hc, he, hx, String.ext_iff]

/-! ### Claim theorems -/

/-- C1: `Nemo.install_action` binds the key `"exec"` instead of
`"executable"`, so with name, comment and extensions supplied (and no
separate executable field) the written `.nemo_action` file keeps the
literal `${executable}` in its Exec line instead of the source path:
the claim's promised `Exec=<sourcePath> %F` line is not produced. -/
theorem C1_exec_placeholder_left_literal :
    Nemo.install_action
        [([".local", "share", "nemo"], FSEntry.dir),
         ([".local", "share", "nemo", "actions"], FSEntry.dir)]
        ["home", "u", "tool.sh"]
        [("name", "Tool"), ("comment", "A tool"), ("extensions", "sh")]
      = Except.ok
          (([".local", "share", "nemo", "actions", "Tool.nemo_action"],
            FSEntry.file
              "[Nemo Action]\nName=Tool\nComment=A tool\nExec=${executable} %F\nSelection=S\nExtensions=sh;\nQuote=double\n")
            :: [([".local", "share", "nemo"], FSEntry.dir),
                ([".local", "share", "nemo", "actions"], FSEntry.dir)]) := by
  decide

/-- C2 counterexample: invoking `install_script` on Thunar — whose
capability set lacks "scripts" — fails with `AttributeError` (the class
does not define the method), not with the UnsupportedCapability
`ValueError` the claim promises for every such invocation. -/
theorem C2_counterexample_thunar_attribute_error :
    invoke_install_script FileManager.thunar
        [([".local", "share", "unknown"], FSEntry.dir)]
        ["home", "u", "s.sh"] "S" false false
      = ⟨Except.error (PyErr.attributeError "install_script"), []⟩ := by
  decide

/-- C2 (amended): the capability checks themselves fail with the
UnsupportedCapability `ValueError` exactly when the corresponding kind is
absent from `capabilities()`, for every filesystem state (hence before any
filesystem access), and reduce to the plain installation check exactly
when it is present; however an invocation of an operation the class does
not define fails with `AttributeError`, and the declared-but-unimplemented
`install_action` stubs fail with `NotImplementedError` before any check. -/
theorem C2_capability_gate (fm : FileManager) (fs : FS) (src : Path) (dn : String)
    (fc fr : Bool) (opts : List (String × String)) :
    (SCRIPTS ∉ fm.capabilities →
      check_scripts_support fm fs
        = Except.error (PyErr.valueError ("Scripts not supported in " ++ fm.fmName ++ "!")))
    ∧ (ACTIONS ∉ fm.capabilities →
      check_actions_support fm fs
        = Except.error (PyErr.valueError ("Actions not supported in " ++ fm.fmName ++ "!")))
    ∧ (SCRIPTS ∈ fm.capabilities → check_scripts_support fm fs = check_installation fm fs)
    ∧ (ACTIONS ∈ fm.capabilities → check_actions_support fm fs = check_installation fm fs)
    ∧ (hasInstallScriptMethod fm = true → SCRIPTS ∈ fm.capabilities)
    ∧ (hasInstallScriptMethod fm = false →
      invoke_install_script fm fs src dn fc fr
        = ⟨Except.error (PyErr.attributeError "install_script"), []⟩)
    ∧ (isActionStub fm = true →
      invoke_install_action fm fs src opts = Except.error PyErr.notImplementedError)
    ∧ (hasInstallActionMethod fm = false →
      invoke_install_action fm fs src opts
        = Except.error (PyErr.attributeError "install_action")) := by
  cases fm <;>
    simp [check_scripts_support, check_actions_support, FileManager.capabilities,
      hasInstallScriptMethod, hasInstallActionMethod, isActionStub,
      invoke_install_script, invoke_install_action, FileManager.fmName, SCRIPTS, ACTIONS]

/-- C2 witness: the amended theorem applied to PCManFM and a concrete
filesystem. -/
theorem C2_capability_gate_witness :
    invoke_install_script FileManager.pcManFm [] ["home", "u", "s.sh"] "S" false false
      = ⟨Except.error (PyErr.attributeError "install_script"), []⟩ :=
  (C2_capability_gate FileManager.pcManFm [] ["home", "u", "s.sh"] "S" false false
    []).2.2.2.2.2.1 rfl

/-- C7: `is_installed` maps a zero exit to `True` and a non-zero exit to
`False`, but a spawn failure raises `FileNotFoundError` (it is not a
`CalledProcessError`, the only exception caught), so the claim that a
launch failure also yields `False` does not hold on the code. -/
theorem C7_spawn_failure_propagates :
    is_installed ProbeOutcome.exitZero = Except.ok true
    ∧ is_installed ProbeOutcome.exitNonZero = Except.ok false
    ∧ is_installed ProbeOutcome.spawnFailure = Except.error PyErr.fileNotFoundError
    ∧ is_installed ProbeOutcome.spawnFailure ≠ Except.ok false := by
  decide

/-- C8: `check_installation` fails — with the "probably not installed"
`ValueError` — exactly when the base config directory is not a directory,
for every file manager regardless of its capability set. -/
theorem C8_check_installation_iff_config_dir (fm : FileManager) (fs : FS) :
    (check_installation fm fs
        = Except.error (PyErr.valueError (fm.fmName ++ " is probably not installed!"))
      ↔ isDir fs fm.configPath = false)
    ∧ (check_installation fm fs = Except.ok () ↔ isDir fs fm.configPath = true) := by
  cases h : isDir fs fm.configPath <;> simp [check_installation, h]

/-- C9: for every constructed profile, `actions_path` is set iff "actions"
is in the capability set and `scripts_path` is set iff "scripts" is, and
each, when set, is the config path joined with the respective
subdirectory name. -/
theorem C9_paths_defined_iff_capability (fm : FileManager) :
    ((initProfile fm).actions_path ≠ none ↔ ACTIONS ∈ fm.capabilities)
    ∧ ((initProfile fm).scripts_path ≠ none ↔ SCRIPTS ∈ fm.capabilities)
    ∧ (ACTIONS ∈ fm.capabilities →
      (initProfile fm).actions_path = some (fm.configPath ++ [fm.actionsSubdir]))
    ∧ (SCRIPTS ∈ fm.capabilities →
      (initProfile fm).scripts_path = some (fm.configPath ++ [fm.scriptsSubdir])) := by
  cases fm <;> decide

/-- C9 witness: the theorem applied to Nemo. -/
theorem C9_paths_defined_iff_capability_witness :
    (initProfile FileManager.nemo).actions_path
      = some (FileManager.nemo.configPath ++ [FileManager.nemo.actionsSubdir]) :=
  (C9_paths_defined_iff_capability FileManager.nemo).2.2.1 (by decide)

/-- C3: with `force_rename_existing` set, a well-formed filesystem whose
scripts directory holds exactly one symlink to the source (under a
different name) and nothing at the new target path: the call renames that
symlink to the new display name and succeeds with no warnings, and exactly
one symlink to the source remains afterwards. -/
theorem C3_force_rename_relabels (fm : FileManager) (fs : FS) (src : Path)
    (old dn : String) (fc : Bool)
    (hfm : hasInstallScriptMethod fm = true)
    (hnd : (fs.map Prod.fst).Nodup)
    (hconf : lookupPath fs fm.configPath = some FSEntry.dir)
    (hs : lookupPath fs (scriptsPathOf fm) = some FSEntry.dir)
    (hlinks : linksTo fs (scriptsPathOf fm) src = [old])
    (_hne : old ≠ dn)
    (htgt : lookupPath fs (scriptsPathOf fm ++ [dn]) = none) :
    install_script fm fs src dn fc true
      = ⟨Except.ok ((scriptsPathOf fm ++ [dn], FSEntry.symlink src)
          :: removePath (removePath fs (scriptsPathOf fm ++ [old]))
              (scriptsPathOf fm ++ [dn])),
        []⟩
    ∧ linksTo ((scriptsPathOf fm ++ [dn], FSEntry.symlink src)
          :: removePath (removePath fs (scriptsPathOf fm ++ [old]))
              (scriptsPathOf fm ++ [dn]))
        (scriptsPathOf fm) src = [dn] := by
  have hmem := scripts_mem_of_hasMethod hfm
  have hfilter := filter_links_eq_single src (by simpa [linksTo] using hlinks)
  have hlook : lookupPath fs (scriptsPathOf fm ++ [old]) = some (FSEntry.symlink src) :=
    lookup_of_mem_nodup hnd (mem_linksTo (by rw [hlinks]; exact List.mem_cons_self _ _))
  constructor
  · rw [install_script_run src dn fc true hmem (isDir_of_lookup_dir hconf)
      (isDir_of_lookup_dir hs) (pathExists_of_lookup_none htgt)]
    rw [scanLinks_rename_single hfilter]
    simp [osRename, hlook]
  · rw [linksTo_cons_concat_link]
    have h1 : linksTo (removePath fs (scriptsPathOf fm ++ [old])) (scriptsPathOf fm) src = [] :=
      linksTo_remove_old hlinks
    have h2 := linksTo_sublist (scriptsPathOf fm) src
      (removePath_sublist (removePath fs (scriptsPathOf fm ++ [old])) (scriptsPathOf fm ++ [dn]))
    rw [h1] at h2
    rw [List.sublist_nil.mp h2]

/-- C3 witness: the theorem applied to Nautilus on a concrete filesystem
holding one prior symlink named "Old Name". -/
theorem C3_force_rename_relabels_witness :
    install_script FileManager.nautilus
        [([".local", "share", "nautilus"], FSEntry.dir),
         ([".local", "share", "nautilus", "scripts"], FSEntry.dir),
         ([".local", "share", "nautilus", "scripts", "Old Name"],
           FSEntry.symlink ["home", "u", "tools", "rename.sh"])]
        ["home", "u", "tools", "rename.sh"] "New Name" false true
      = ⟨Except.ok (([".local", "share", "nautilus", "scripts"] ++ ["New Name"],
            FSEntry.symlink ["home", "u", "tools", "rename.sh"])
          :: removePath
              (removePath
                [([".local", "share", "nautilus"], FSEntry.dir),
                 ([".local", "share", "nautilus", "scripts"], FSEntry.dir),
                 ([".local", "share", "nautilus", "scripts", "Old Name"],
                   FSEntry.symlink ["home", "u", "tools", "rename.sh"])]
                ([".local", "share", "nautilus", "scripts"] ++ ["Old Name"]))
              ([".local", "share", "nautilus", "scripts"] ++ ["New Name"])),
        []⟩
    ∧ linksTo (([".local", "share", "nautilus", "scripts"] ++ ["New Name"],
            FSEntry.symlink ["home", "u", "tools", "rename.sh"])
          :: removePath
              (removePath
                [([".local", "share", "nautilus"], FSEntry.dir),
                 ([".local", "share", "nautilus", "scripts"], FSEntry.dir),
                 ([".local", "share", "nautilus", "scripts", "Old Name"],
                   FSEntry.symlink ["home", "u", "tools", "rename.sh"])]
                ([".local", "share", "nautilus", "scripts"] ++ ["Old Name"]))
              ([".local", "share", "nautilus", "scripts"] ++ ["New Name"]))
        [".local", "share", "nautilus", "scripts"]
        ["home", "u", "tools", "rename.sh"] = ["New Name"] :=
  C3_force_rename_relabels FileManager.nautilus
    [([".local", "share", "nautilus"], FSEntry.dir),
     ([".local", "share", "nautilus", "scripts"], FSEntry.dir),
     ([".local", "share", "nautilus", "scripts", "Old Name"],
       FSEntry.symlink ["home", "u", "tools", "rename.sh"])]
    ["home", "u", "tools", "rename.sh"] "Old Name" "New Name" false
    (by decide) (by decide) (by decide) (by decide) (by decide) (by decide) (by decide)

/-- C5: without the force flag, same precondition — one prior symlink to
the source under a different name, nothing at the target — the call logs a
warning naming the prior link, still succeeds, and creates a second,
additional symlink, after which both entries point at the source. -/
theorem C5_duplicate_symlink_with_warning (fm : FileManager) (fs : FS) (src : Path)
    (old dn : String) (fc : Bool)
    (hfm : hasInstallScriptMethod fm = true)
    (hconf : lookupPath fs fm.configPath = some FSEntry.dir)
    (hs : lookupPath fs (scriptsPathOf fm) = some FSEntry.dir)
    (hlinks : linksTo fs (scriptsPathOf fm) src = [old])
    (_hne : old ≠ dn)
    (htgt : lookupPath fs (scriptsPathOf fm ++ [dn]) = none) :
    install_script fm fs src dn fc false
      = ⟨Except.ok ((scriptsPathOf fm ++ [dn], FSEntry.symlink src) :: fs),
        [scriptsPathOf fm ++ [old]]⟩
    ∧ linksTo ((scriptsPathOf fm ++ [dn], FSEntry.symlink src) :: fs)
        (scriptsPathOf fm) src = [dn, old] := by
  have hmem := scripts_mem_of_hasMethod hfm
  have hfilter := filter_links_eq_single src (by simpa [linksTo] using hlinks)
  constructor
  · rw [install_script_run src dn fc false hmem (isDir_of_lookup_dir hconf)
      (isDir_of_lookup_dir hs) (pathExists_of_lookup_none htgt)]
    rw [scanLinks_no_force, hfilter]
    simp [osSymlink, htgt]
  · rw [linksTo_cons_concat_link, hlinks]

/-- C5 witness: the theorem applied to Nautilus on the same concrete
filesystem as the C3 witness, now without the force flag. -/
theorem C5_duplicate_symlink_with_warning_witness :
    install_script FileManager.nautilus
        [([".local", "share", "nautilus"], FSEntry.dir),
         ([".local", "share", "nautilus", "scripts"], FSEntry.dir),
         ([".local", "share", "nautilus", "scripts", "Old Name"],
           FSEntry.symlink ["home", "u", "tools", "rename.sh"])]
        ["home", "u", "tools", "rename.sh"] "New Name" false false
      = ⟨Except.ok (([".local", "share", "nautilus", "scripts"] ++ ["New Name"],
            FSEntry.symlink ["home", "u", "tools", "rename.sh"])
          :: [([".local", "share", "nautilus"], FSEntry.dir),
              ([".local", "share", "nautilus", "scripts"], FSEntry.dir),
              ([".local", "share", "nautilus", "scripts", "Old Name"],
                FSEntry.symlink ["home", "u", "tools", "rename.sh"])]),
        [[".local", "share", "nautilus", "scripts"] ++ ["Old Name"]]⟩
    ∧ linksTo (([".local", "share", "nautilus", "scripts"] ++ ["New Name"],
            FSEntry.symlink ["home", "u", "tools", "rename.sh"])
          :: [([".local", "share", "nautilus"], FSEntry.dir),
              ([".local", "share", "nautilus", "scripts"], FSEntry.dir),
              ([".local", "share", "nautilus", "scripts", "Old Name"],
                FSEntry.symlink ["home", "u", "tools", "rename.sh"])])
        [".local", "share", "nautilus", "scripts"]
        ["home", "u", "tools", "rename.sh"] = ["New Name", "Old Name"] :=
  C5_duplicate_symlink_with_warning FileManager.nautilus
    [([".local", "share", "nautilus"], FSEntry.dir),
     ([".local", "share", "nautilus", "scripts"], FSEntry.dir),
     ([".local", "share", "nautilus", "scripts", "Old Name"],
       FSEntry.symlink ["home", "u", "tools", "rename.sh"])]
    ["home", "u", "tools", "rename.sh"] "Old Name" "New Name" false
    (by decide) (by decide) (by decide) (by decide) (by decide) (by decide)

/-- C4 counterexample: when the source path does not exist, the first
install succeeds in creating the (now dangling) symlink, but the second
call with the same display name raises the untyped `FileExistsError` from
`os.symlink` — not the TargetExists "already exists" `ValueError` the
claim promises — because the resolving `exists()` check misses the
dangling link. -/
theorem C4_counterexample_dangling_source :
    (install_script FileManager.nautilus
        [([".local", "share", "nautilus"], FSEntry.dir),
         ([".local", "share", "nautilus", "scripts"], FSEntry.dir)]
        ["home", "u", "gone.sh"] "Tool" false false).result
      = Except.ok
          (([".local", "share", "nautilus", "scripts", "Tool"],
            FSEntry.symlink ["home", "u", "gone.sh"])
            :: [([".local", "share", "nautilus"], FSEntry.dir),
                ([".local", "share", "nautilus", "scripts"], FSEntry.dir)])
    ∧ (install_script FileManager.nautilus
        (([".local", "share", "nautilus", "scripts", "Tool"],
          FSEntry.symlink ["home", "u", "gone.sh"])
          :: [([".local", "share", "nautilus"], FSEntry.dir),
              ([".local", "share", "nautilus", "scripts"], FSEntry.dir)])
        ["home", "u", "gone.sh"] "Tool" false false).result
      = Except.error PyErr.fileExistsError := by
  decide

/-- C4 (amended): with both force flags unset and the source path naming
an existing regular file, a first successful install followed by a second
call with the same display name makes the second call fail with the
TargetExists "already exists" `ValueError` (distinct from the "not
available" directory error), creating nothing. -/
theorem C4_second_install_raises_target_exists (fm : FileManager) (fs0 : FS) (src : Path)
    (dn c : String)
    (hfm : hasInstallScriptMethod fm = true)
    (hconf : lookupPath fs0 fm.configPath = some FSEntry.dir)
    (hs : lookupPath fs0 (scriptsPathOf fm) = some FSEntry.dir)
    (htgt : lookupPath fs0 (scriptsPathOf fm ++ [dn]) = none)
    (hsrc : lookupPath fs0 src = some (FSEntry.file c))
    (hsrcne : src ≠ scriptsPathOf fm ++ [dn]) :
    (install_script fm fs0 src dn false false).result
      = Except.ok ((scriptsPathOf fm ++ [dn], FSEntry.symlink src) :: fs0)
    ∧ (install_script fm ((scriptsPathOf fm ++ [dn], FSEntry.symlink src) :: fs0) src dn
        false false).result
      = Except.error
          (PyErr.valueError (pathStr (scriptsPathOf fm ++ [dn]) ++ " already exists!")) := by
  have hmem := scripts_mem_of_hasMethod hfm
  have hconfne : scriptsPathOf fm ++ [dn] ≠ fm.configPath := by
    rw [scriptsPathOf]
    exact concat_two_ne_self fm.configPath fm.scriptsSubdir dn
  have hspne : scriptsPathOf fm ++ [dn] ≠ scriptsPathOf fm :=
    concat_ne_self (scriptsPathOf fm) dn
  constructor
  · rw [install_script_run src dn false false hmem (isDir_of_lookup_dir hconf)
      (isDir_of_lookup_dir hs) (pathExists_of_lookup_none htgt)]
    rw [scanLinks_no_force]
    simp [osSymlink, htgt]
  · have hconf2 : lookupPath ((scriptsPathOf fm ++ [dn], FSEntry.symlink src) :: fs0)
        fm.configPath = some FSEntry.dir := by
      rw [lookupPath_cons_ne hconfne]
      exact hconf
    have hs2 : lookupPath ((scriptsPathOf fm ++ [dn], FSEntry.symlink src) :: fs0)
        (scriptsPathOf fm) = some FSEntry.dir := by
      rw [lookupPath_cons_ne hspne]
      exact hs
    have hsrc2 : lookupPath ((scriptsPathOf fm ++ [dn], FSEntry.symlink src) :: fs0)
        src = some (FSEntry.file c) := by
      rw [lookupPath_cons_ne (fun h => hsrcne h.symm)]
      exact hsrc
    have hex : pathExists ((scriptsPathOf fm ++ [dn], FSEntry.symlink src) :: fs0)
        (scriptsPathOf fm ++ [dn]) = true :=
      pathExists_symlink_file lookupPath_cons_self hsrc2
    rw [install_script_target_exists src dn false false hmem
      (isDir_of_lookup_dir hconf2) (isDir_of_lookup_dir hs2) hex]

/-- C4 witness: the amended theorem applied to Nautilus with an existing
source file. -/
theorem C4_second_install_raises_target_exists_witness :
    (install_script FileManager.nautilus
        [([".local", "share", "nautilus"], FSEntry.dir),
         ([".local", "share", "nautilus", "scripts"], FSEntry.dir),
         (["home", "u", "tools", "rename.sh"], FSEntry.file "#!/bin/sh\n")]
        ["home", "u", "tools", "rename.sh"] "Batch Rename" false false).result
      = Except.ok (([".local", "share", "nautilus", "scripts"] ++ ["Batch Rename"],
          FSEntry.symlink ["home", "u", "tools", "rename.sh"])
          :: [([".local", "share", "nautilus"], FSEntry.dir),
              ([".local", "share", "nautilus", "scripts"], FSEntry.dir),
              (["home", "u", "tools", "rename.sh"], FSEntry.file "#!/bin/sh\n")])
    ∧ (install_script FileManager.nautilus
        (([".local", "share", "nautilus", "scripts"] ++ ["Batch Rename"],
          FSEntry.symlink ["home", "u", "tools", "rename.sh"])
          :: [([".local", "share", "nautilus"], FSEntry.dir),
              ([".local", "share", "nautilus", "scripts"], FSEntry.dir),
              (["home", "u", "tools", "rename.sh"], FSEntry.file "#!/bin/sh\n")])
        ["home", "u", "tools", "rename.sh"] "Batch Rename" false false).result
      = Except.error
          (PyErr.valueError
            (pathStr ([".local", "share", "nautilus", "scripts"] ++ ["Batch Rename"])
              ++ " already exists!")) :=
  C4_second_install_raises_target_exists FileManager.nautilus
    [([".local", "share", "nautilus"], FSEntry.dir),
     ([".local", "share", "nautilus", "scripts"], FSEntry.dir),
     (["home", "u", "tools", "rename.sh"], FSEntry.file "#!/bin/sh\n")]
    ["home", "u", "tools", "rename.sh"] "Batch Rename" "#!/bin/sh\n"
    (by decide) (by decide) (by decide) (by decide) (by decide) (by decide)

/-- C10 counterexample: a dangling symlink at the target that points at
the source path itself, with `force_rename_existing` set, does not make
the symlink creation fail with an untyped error as the claim states —
`os.rename` renames the occupying entry onto itself and the call returns
successfully. -/
theorem C10_counterexample_force_rename_rescue :
    (install_script FileManager.nautilus
        (([".local", "share", "nautilus", "scripts", "Tool"],
          FSEntry.symlink ["home", "u", "gone.sh"])
          :: [([".local", "share", "nautilus"], FSEntry.dir),
              ([".local", "share", "nautilus", "scripts"], FSEntry.dir)])
        ["home", "u", "gone.sh"] "Tool" false true).result
      = Except.ok
          (([".local", "share", "nautilus", "scripts", "Tool"],
            FSEntry.symlink ["home", "u", "gone.sh"])
            :: [([".local", "share", "nautilus"], FSEntry.dir),
                ([".local", "share", "nautilus", "scripts"], FSEntry.dir)]) := by
  decide

/-- C10 (amended): the `exists()` check resolves symbolic links, so a
dangling symlink occupying the target does not raise TargetExists and the
scan proceeds; unless `force_rename_existing` is set and the scan finds
some symlink to the source (in which case `os.rename` replaces the
occupying entry and the call succeeds), the subsequent `os.symlink` fails
with the untyped `FileExistsError` rather than one of the tool's typed
`ValueError`s. -/
theorem C10_dangling_target_untyped_error (fm : FileManager) (fs : FS) (src t : Path)
    (dn : String) (fc fr : Bool)
    (hfm : hasInstallScriptMethod fm = true)
    (hconf : lookupPath fs fm.configPath = some FSEntry.dir)
    (hs : lookupPath fs (scriptsPathOf fm) = some FSEntry.dir)
    (htgt : lookupPath fs (scriptsPathOf fm ++ [dn]) = some (FSEntry.symlink t))
    (hdang : lookupPath fs t = none)
    (hnores : fr = false ∨ linksTo fs (scriptsPathOf fm) src = []) :
    (install_script fm fs src dn fc fr).result = Except.error PyErr.fileExistsError := by
  have hmem := scripts_mem_of_hasMethod hfm
  have hex : pathExists fs (scriptsPathOf fm ++ [dn]) = false :=
    pathExists_symlink_dangling htgt hdang
  rw [install_script_run src dn fc fr hmem (isDir_of_lookup_dir hconf)
    (isDir_of_lookup_dir hs) hex]
  rcases hnores with h | h
  · subst h
    rw [scanLinks_no_force]
    simp [osSymlink, htgt]
  · rw [scanLinks_no_match fr (by simpa [linksTo] using h)]
    simp [osSymlink, htgt]

/-- C10 witness: the amended theorem applied to Nautilus with a dangling
symlink at the target pointing somewhere unrelated. -/
theorem C10_dangling_target_untyped_error_witness :
    (install_script FileManager.nautilus
        (([".local", "share", "nautilus", "scripts", "T"],
          FSEntry.symlink ["no", "where"])
          :: [([".local", "share", "nautilus"], FSEntry.dir),
              ([".local", "share", "nautilus", "scripts"], FSEntry.dir)])
        ["home", "u", "gone.sh"] "T" false false).result
      = Except.error PyErr.fileExistsError :=
  C10_dangling_target_untyped_error FileManager.nautilus
    (([".local", "share", "nautilus", "scripts", "T"],
      FSEntry.symlink ["no", "where"])
      :: [([".local", "share", "nautilus"], FSEntry.dir),
          ([".local", "share", "nautilus", "scripts"], FSEntry.dir)])
    ["home", "u", "gone.sh"] ["no", "where"] "T" false false
    (by decide) (by decide) (by decide) (by decide) (by decide) (Or.inl rfl)

/-- C6: `Nemo.install_action`'s rendering is total — it never fails on a
missing field: each placeholder whose field the caller supplied appears in
the written `.nemo_action` file substituted with the supplied value
verbatim, and each placeholder without a supplied value (the `"executable"`
key is never bound by the code itself) is left as literal placeholder
text, via `Option.getD` over the caller's options. -/
theorem C6_safe_partial_substitution (fs : FS) (source_path : Path)
    (options : List (String × String)) (action_name : String)
    (hname : optLookup options "name" = some action_name)
    (hconf : lookupPath fs FileManager.nemo.configPath = some FSEntry.dir)
    (hact : lookupPath fs (actionsPathOf FileManager.nemo) = some FSEntry.dir)
    (htgt : lookupPath fs
        (actionsPathOf FileManager.nemo ++ [action_name ++ ".nemo_action"]) = none) :
    Nemo.install_action fs source_path options
      = Except.ok ((actionsPathOf FileManager.nemo ++ [action_name ++ ".nemo_action"],
          FSEntry.file
            ("[Nemo Action]\nName=" ++ ((optLookup options "name").getD "${name}")
              ++ "\nComment=" ++ ((optLookup options "comment").getD "${comment}")
              ++ "\nExec=" ++ ((optLookup options "executable").getD "${executable}")
              ++ " %F\nSelection=S\nExtensions="
              ++ ((optLookup options "extensions").getD "${extensions}")
              ++ ";\nQuote=double\n"))
        :: removePath fs (actionsPathOf FileManager.nemo ++ [action_name ++ ".nemo_action"])) := by
  rw [Nemo.install_action,
    check_actions_support_of_mem (show ACTIONS ∈ FileManager.nemo.capabilities by decide),
    check_installation_ok (isDir_of_lookup_dir hconf)]
  rw [hname]
  dsimp only
  rw [safeSubstitute_nemo_template]
  rw [optLookup_setOption_ne "exec" (pathStr source_path) (by decide),
    optLookup_setOption_ne "exec" (pathStr source_path) (by decide),
    optLookup_setOption_ne "exec" (pathStr source_path) (by decide),
    optLookup_setOption_ne "exec" (pathStr source_path) (by decide)]
  rw [writeTextFile]
  have hdrop : (actionsPathOf FileManager.nemo ++ [action_name ++ ".nemo_action"]).dropLast
      = actionsPathOf FileManager.nemo := by
    simp
  rw [hdrop, htgt]
  simp [isDir_of_lookup_dir hact, hname]

/-- C6 witness: the theorem applied with only the name supplied, so the
comment, executable and extensions placeholders stay literal in the
written file. -/
theorem C6_safe_partial_substitution_witness :
    Nemo.install_action
        [([".local", "share", "nemo"], FSEntry.dir),
         ([".local", "share", "nemo", "actions"], FSEntry.dir)]
        ["home", "u", "tool.sh"] [("name", "Tool")]
      = Except.ok ((actionsPathOf FileManager.nemo ++ ["Tool" ++ ".nemo_action"],
          FSEntry.file
            ("[Nemo Action]\nName="
              ++ ((optLookup [("name", "Tool")] "name").getD "${name}")
              ++ "\nComment=" ++ ((optLookup [("name", "Tool")] "comment").getD "${comment}")
              ++ "\nExec="
              ++ ((optLookup [("name", "Tool")] "executable").getD "${executable}")
              ++ " %F\nSelection=S\nExtensions="
              ++ ((optLookup [("name", "Tool")] "extensions").getD "${extensions}")
              ++ ";\nQuote=double\n"))
        :: removePath
            [([".local", "share", "nemo"], FSEntry.dir),
             ([".local", "share", "nemo", "actions"], FSEntry.dir)]
            (actionsPathOf FileManager.nemo ++ ["Tool" ++ ".nemo_action"])) :=
  C6_safe_partial_substitution
    [([".local", "share", "nemo"], FSEntry.dir),
     ([".local", "share", "nemo", "actions"], FSEntry.dir)]
    ["home", "u", "tool.sh"] [("name", "Tool")] "Tool"
    (by decide) (by decide) (by decide) (by decide)

end FMI
